import Mathlib

/-!
Formal model of the autoscaling control plane for self-hosted CI runners
(terraform-aws-github-runner). Each definition is a shallow embedding of a
function of the TypeScript source; external calls (EC2, GitHub, SSM) are
modelled as oracle fields of explicit environment structures. Time is
modelled in abstract minute units; JavaScript stable sorts are modelled by a
structural stable insertion sort, which agrees with any stable sort for the
consistent comparators used by the source.
-/

/-- Stable insertion of `x` into `l`: `x` is placed before the first element
`y` with `cmp y x ≥ 0`, so elements comparing strictly smaller stay in front
and ties keep their original relative order, as JavaScript `Array.sort`
(stable since ES2019) does. -/
def stableInsert (cmp : α → α → Int) (x : α) : List α → List α
  | [] => [x]
  | y :: ys => if cmp y x < 0 then y :: stableInsert cmp x ys else x :: y :: ys

/-- Stable comparator sort modelling JavaScript `Array.prototype.sort`. -/
def sortWithComparator (cmp : α → α → Int) : List α → List α
  | [] => []
  | x :: xs => stableInsert cmp x (sortWithComparator cmp xs)

/-- First-occurrence deduplication, modelling iteration order of a JavaScript
`Set` built from a list. -/
def dedupFirst (xs : List String) : List String :=
  xs.foldl (fun acc x => if x ∈ acc then acc else acc ++ [x]) []

/-- Suffix test on strings, modelling `String.prototype.endsWith`. -/
def strEndsWith (s suffix : String) : Bool :=
  suffix.data.isSuffixOf s.data

/-! ## Cloud adapter: `createRunner` (aws/runners.ts) -/

/-- Element of `CreateFleetResult.Instances`; `InstanceIds` is optional in the
AWS response. -/
structure FleetInstanceSet where
  InstanceIds : Option (List String)
deriving DecidableEq, Repr

/-- Element of `CreateFleetResult.Errors`; `ErrorCode` is optional. -/
structure FleetError where
  ErrorCode : Option String
deriving DecidableEq, Repr

/-- Result of the EC2 `CreateFleet` call, as consumed by `createRunner`. -/
structure CreateFleetResult where
  Instances : Option (List FleetInstanceSet)
  Errors : Option (List FleetError)
deriving DecidableEq, Repr

/-- Instance ids extracted from the fleet result:
`fleet.Instances?.flatMap((i) => i.InstanceIds?.flatMap((j) => j) || []) || []`
(the inner `flatMap` over strings is the identity). -/
def fleetInstances (fleet : CreateFleetResult) : List String :=
  (fleet.Instances.getD []).flatMap (fun i => i.InstanceIds.getD [])

/-- Error codes extracted from the fleet result:
`fleet.Errors?.flatMap((e) => e.ErrorCode || '') || []`. -/
def fleetErrorCodes (fleet : CreateFleetResult) : List String :=
  (fleet.Errors.getD []).map (fun e => e.ErrorCode.getD "")

/-- Retriable error-code list `scaleErrors` of `createRunner`
(aws/runners.ts); the source list contains `MaxSpotInstanceCountExceeded`
twice, which is kept here verbatim. -/
def scaleErrors : List String :=
  ["UnfulfillableCapacity",
   "MaxSpotInstanceCountExceeded",
   "TargetCapacityLimitExceededException",
   "RequestLimitExceeded",
   "ResourceLimitExceeded",
   "MaxSpotInstanceCountExceeded",
   "MaxSpotFleetRequestCountExceeded",
   "InsufficientInstanceCapacity"]

/-- Outcome of `createRunner` after the `CreateFleet` call returned:
`created` is normal return with the created instance ids, `scaleError` is the
retriable `throw new ScaleError(...)`, `fatalError` is the plain
`throw Error(...)`. -/
inductive CreateRunnerOutcome
  | created (instances : List String)
  | scaleError
  | fatalError
deriving DecidableEq, Repr

/-- Error classification of `createRunner` (aws/runners.ts): with zero
instances, throw `ScaleError` when some error code is retriable
(`errors.some((e) => scaleErrors.includes(e))`), else throw a plain `Error`;
with at least one instance, proceed normally ignoring all error codes. -/
def createRunnerOutcome (fleet : CreateFleetResult) : CreateRunnerOutcome :=
  let instances := fleetInstances fleet
  if instances.length = 0 then
    let errors := fleetErrorCodes fleet
    if errors.any (fun e => scaleErrors.contains e) then
      CreateRunnerOutcome.scaleError
    else
      CreateRunnerOutcome.fatalError
  else
    CreateRunnerOutcome.created instances

/-- Instance tag specification passed to the `CreateFleet` call by
`createRunner` (aws/runners.ts, `TagSpecifications`): exactly four tags. -/
def createFleetTagSpecification (numberOfRunners : Int) (runnerType runnerOwner : String) :
    List (String × String) :=
  [("ghr:Application", "github-action-runner"),
   ("ghr:created_by", if numberOfRunners = 1 then "scale-up-lambda" else "pool-lambda"),
   ("Type", runnerType),
   ("Owner", runnerOwner)]

/-! ## Scale-up dispatcher (scale-runners/scale-up.ts) -/

/-- Queue message (`ActionRequestMessageSQS`): parsed SQS body plus the
queue-delivery `messageId`. -/
structure ActionRequestMessageSQS where
  id : Int
  eventType : String
  repositoryName : String
  repositoryOwner : String
  installationId : Int
  repoOwnerType : String
  retryCounter : Option Nat
  messageId : String
deriving DecidableEq, Repr

/-- Semantically load-bearing configuration read by `scaleUp` from the
environment. -/
structure ScaleUpConfig where
  enableOrgLevel : Bool
  maximumRunners : Int
  ephemeralEnabled : Bool
  enableJobQueuedCheck : Bool
deriving Repr

/-- Oracles for the external calls made by `scaleUp`: per-message GitHub job
status (`isJobQueued`), per-scope EC2 inventory size (`listEC2Runners(...).length`)
and the instance ids returned by `createRunners` for a scope and count. -/
structure ScaleUpEnv where
  jobQueued : ActionRequestMessageSQS → Bool
  currentRunners : String → Nat
  fleetInstancesFor : String → Int → List String

/-- Validation-pass rejection (`scaleUp`, first loop): with ephemeral runners
enabled, events other than `workflow_job` are pushed to `invalidMessages`. -/
def scaleUpValidationRejects (cfg : ScaleUpConfig) (payloads : List ActionRequestMessageSQS) :
    List String :=
  (payloads.filter (fun m => cfg.ephemeralEnabled && m.eventType != "workflow_job")).map
    (fun m => m.messageId)

/-- Messages surviving the validation pass of `scaleUp`: not rejected by the
ephemeral check and not silently skipped by
`isValidRepoOwnerTypeIfOrgLevelEnabled`. -/
def validPayloads (cfg : ScaleUpConfig) (payloads : List ActionRequestMessageSQS) :
    List ActionRequestMessageSQS :=
  payloads.filter (fun m =>
    !(cfg.ephemeralEnabled && m.eventType != "workflow_job") &&
    !(cfg.enableOrgLevel && m.repoOwnerType != "Organization"))

/-- Scope key used to group messages: owner in org mode, owner/repo
otherwise. -/
def groupKey (cfg : ScaleUpConfig) (m : ActionRequestMessageSQS) : String :=
  if cfg.enableOrgLevel then m.repositoryOwner
  else m.repositoryOwner ++ "/" ++ m.repositoryName

/-- Messages of one scope that pass the queued check: the per-message loop of
`scaleUp` skips a message when `enableJobQueuedCheck` holds and its job is no
longer queued. -/
def survivingMessages (cfg : ScaleUpConfig) (env : ScaleUpEnv)
    (messages : List ActionRequestMessageSQS) : List ActionRequestMessageSQS :=
  messages.filter (fun m => !cfg.enableJobQueuedCheck || env.jobQueued m)

/-- Observable result of the per-scope part of `scaleUp`: the message ids
pushed to `invalidMessages` (the reject list) and the bulk-create calls made,
as (scope, requested count) pairs. -/
structure GroupResult where
  rejects : List String
  calls : List (String × Int)
deriving DecidableEq, Repr

/-- Capacity computation and bulk create for one scope, mirroring the body of
the per-group loop of `scaleUp` for a group with surviving-message count
`scaleUpCount > 0`:
`currentRunners` is 0 without EC2 query when `maximumRunners === -1`;
`newRunners = maximumRunners === -1 ? scaleUp : Math.min(scaleUp, maximumRunners - currentRunners)`;
`missingInstanceCount = Math.max(0, scaleUp - newRunners)`; when positive and
ephemeral mode is on, the first `missingInstanceCount` messages are spliced
off the group list and rejected; when `missingInstanceCount === scaleUp` the
EC2 call is skipped; otherwise `createRunners` is called with `newRunners`
and a shortfall `newRunners - instances.length` rejects that many of the
remaining messages. -/
def processGroupCapacity (cfg : ScaleUpConfig) (env : ScaleUpEnv) (group : String)
    (messages : List ActionRequestMessageSQS) (scaleUpCount : Nat) : GroupResult :=
  let currentRunners : Nat := if cfg.maximumRunners = -1 then 0 else env.currentRunners group
  let newRunners : Int :=
    if cfg.maximumRunners = -1 then (scaleUpCount : Int)
    else min (scaleUpCount : Int) (cfg.maximumRunners - (currentRunners : Int))
  let missingInstanceCount : Nat := (max 0 ((scaleUpCount : Int) - newRunners)).toNat
  let capacityRejects : List String :=
    if 0 < missingInstanceCount ∧ cfg.ephemeralEnabled then
      (messages.take missingInstanceCount).map (fun m => m.messageId)
    else []
  let remaining : List ActionRequestMessageSQS :=
    if 0 < missingInstanceCount ∧ cfg.ephemeralEnabled then
      messages.drop missingInstanceCount
    else messages
  if missingInstanceCount = scaleUpCount then ⟨capacityRejects, []⟩
  else
    let instances := env.fleetInstancesFor group newRunners
    let shortfallRejects : List String :=
      if (instances.length : Int) ≠ newRunners then
        (remaining.take (newRunners - (instances.length : Int)).toNat).map (fun m => m.messageId)
      else []
    ⟨capacityRejects ++ shortfallRejects, [(group, newRunners)]⟩

/-- Per-scope processing of `scaleUp`: a group whose surviving-message count
is zero is skipped (`continue`) with no rejects and no EC2 call. -/
def processGroup (cfg : ScaleUpConfig) (env : ScaleUpEnv) (group : String)
    (messages : List ActionRequestMessageSQS) : GroupResult :=
  let scaleUpCount := (survivingMessages cfg env messages).length
  if scaleUpCount = 0 then ⟨[], []⟩
  else processGroupCapacity cfg env group messages scaleUpCount

/-- Capacity formula for one scope when `maximumRunners` is not -1:
`min(want, max(0, maximumRunners - current))` (the `Int.toNat` clamps the
difference at 0), for a scope with `want = scaleUpCount` surviving
messages. -/
def cappedNewRunnerCount (cfg : ScaleUpConfig) (env : ScaleUpEnv) (group : String)
    (scaleUpCount : Nat) : Nat :=
  min scaleUpCount (cfg.maximumRunners - (env.currentRunners group : Int)).toNat

/-- Shortfall rejection of `scaleUp` after a bulk-create call for `n`
instances: when fewer instances come back, reject the first
`n - instances.length` of the not-yet-consumed messages. -/
def fleetShortfallRejects (env : ScaleUpEnv) (group : String)
    (messages : List ActionRequestMessageSQS) (n : Nat) : List String :=
  let instances := env.fleetInstancesFor group (n : Int)
  if (instances.length : Int) ≠ (n : Int) then
    (messages.take ((n : Int) - (instances.length : Int)).toNat).map (fun m => m.messageId)
  else []

/-- Messages of the batch belonging to scope `g`, in batch order, as grouped
by the validation pass of `scaleUp`. -/
def scopeMessages (cfg : ScaleUpConfig) (payloads : List ActionRequestMessageSQS) (g : String) :
    List ActionRequestMessageSQS :=
  (validPayloads cfg payloads).filter (fun m => groupKey cfg m = g)

/-- Whole-batch model of `scaleUp`: validation rejects in batch order followed
by the per-scope rejects in scope insertion order, and the bulk-create calls
made. -/
def scaleUpModel (cfg : ScaleUpConfig) (env : ScaleUpEnv)
    (payloads : List ActionRequestMessageSQS) : GroupResult :=
  let keys := dedupFirst ((validPayloads cfg payloads).map (groupKey cfg))
  let results := keys.map (fun g => processGroup cfg env g (scopeMessages cfg payloads g))
  ⟨scaleUpValidationRejects cfg payloads ++ (results.map GroupResult.rejects).flatten,
   (results.map GroupResult.calls).flatten⟩

/-! ## Scale-up intake (lambda.ts `scaleUpHandler` and ScaleError) -/

/-- SQS record as consumed by `scaleUpHandler`: event source plus the parsed
message (already carrying its `messageId`). -/
structure SQSRecordM where
  eventSource : String
  message : ActionRequestMessageSQS
deriving DecidableEq, Repr

/-- Message collection loop of `scaleUpHandler`: records with an event source
other than `aws:sqs` are ignored. -/
def collectSqsMessages (records : List SQSRecordM) : List ActionRequestMessageSQS :=
  (records.filter (fun r => r.eventSource == "aws:sqs")).map (fun r => r.message)

/-- Retry-count sort of `scaleUpHandler`:
`sqsMessages.sort((l, r) => (l.retryCounter ?? 0) - (r.retryCounter ?? 0))`. -/
def sortByRetryCounter (msgs : List ActionRequestMessageSQS) : List ActionRequestMessageSQS :=
  sortWithComparator
    (fun l r => ((l.retryCounter.getD 0 : Int) - (r.retryCounter.getD 0 : Int))) msgs

/-- `ScaleError.toBatchItemFailures` (ScaleError.ts): reject the first
`Math.max(0, Math.min(failedInstanceCount, messages.length))` messages. -/
def toBatchItemFailures (failedInstanceCount : Int) (messages : List ActionRequestMessageSQS) :
    List String :=
  let messagesToRetry := max 0 (min failedInstanceCount (messages.length : Int))
  (messages.take messagesToRetry.toNat).map (fun m => m.messageId)

/-- How the awaited `scaleUp(sqsMessages)` call ends: normal return with the
rejected ids, a thrown `ScaleError` carrying `failedInstanceCount`, or any
other thrown error. -/
inductive ScaleUpOutcome
  | ok (rejected : List String)
  | scaleError (failedInstanceCount : Int)
  | otherError
deriving DecidableEq, Repr

/-- Batch-item-failure list returned by `scaleUpHandler` (lambda.ts): rejected
ids on normal return, `e.toBatchItemFailures(sqsMessages)` for a `ScaleError`,
and the empty list for any other error. -/
def scaleUpHandler (records : List SQSRecordM) (outcome : ScaleUpOutcome) : List String :=
  let sqsMessages := sortByRetryCounter (collectSqsMessages records)
  match outcome with
  | ScaleUpOutcome.ok rejected => rejected
  | ScaleUpOutcome.scaleError n => toBatchItemFailures n sqsMessages
  | ScaleUpOutcome.otherError => []

/-! ## Scale-down reaper (scale-runners/scale-down.ts) -/

/-- Projection of a managed EC2 instance (`RunnerInfo`); `launchTime` is
optional as in the AWS response, in abstract minute units. -/
structure RunnerInfo where
  instanceId : String
  launchTime : Option Nat
  owner : String
  runnerType : String
deriving DecidableEq, Repr

/-- Upstream self-hosted runner record as listed by `listGitHubRunners`. -/
structure GhRunner where
  id : Nat
  name : String
  busy : Bool
  status : String
deriving DecidableEq, Repr

/-- Oracles for scale-down Phase 2: current time and the two configured
thresholds, the per-owner cached runner list (`listGitHubRunners`), the
direct per-runner busy flag (`getGitHubRunnerBusyState`; a 404 is already
folded in as `false` by that function) and the HTTP status of
`deleteSelfHostedRunner` per runner id. -/
structure ScaleDownEnv where
  now : Nat
  minimumRunningTimeInMinutes : Nat
  runnerBootTimeInMinutes : Nat
  ghRunners : String → List GhRunner
  busyState : Nat → Bool
  deleteStatus : Nat → Nat

/-- `runnerMinimumTimeExceeded` (scale-down.ts): `moment(undefined)` is the
current time, so an absent launch time never exceeds the minimum. -/
def runnerMinimumTimeExceeded (env : ScaleDownEnv) (r : RunnerInfo) : Bool :=
  r.launchTime.getD env.now + env.minimumRunningTimeInMinutes < env.now

/-- `bootTimeExceeded` (aws/runners.ts): false for an absent launch time. -/
def bootTimeExceeded (env : ScaleDownEnv) (r : RunnerInfo) : Bool :=
  r.launchTime.getD env.now + env.runnerBootTimeInMinutes < env.now

/-- Upstream runners matched to an instance in Phase 2:
`ghRunners.filter((runner) => runner.name.endsWith(ec2Runner.instanceId))`. -/
def matchedGhRunners (env : ScaleDownEnv) (r : RunnerInfo) : List GhRunner :=
  (env.ghRunners r.owner).filter (fun g => strEndsWith g.name r.instanceId)

/-- What Phase 2 does with one instance. `terminated` is the only branch that
calls `terminateRunner`; `deregisterFailed` is the logged non-204 branch that
keeps the instance; `keptBusy` keeps a busy instance; `keptIdle` consumes the
idle quota; `keptMatched` is a matched instance younger than the minimum
running time; `markedOrphan` tags an unmatched booted instance;
`booting` does nothing. -/
inductive SDAction
  | keptMatched
  | keptIdle
  | keptBusy
  | deregisterFailed
  | terminated
  | markedOrphan
  | booting
deriving DecidableEq, Repr

/-- `removeRunner` (scale-down.ts): query each matched runner directly for
its busy state; only when every one reports not busy, de-register each; only
when every de-registration returns HTTP 204, terminate the instance,
otherwise log and keep it. (Exceptions from these calls are caught and also
keep the instance; the oracles model the non-throwing executions.) -/
def removeRunner (env : ScaleDownEnv) (ghRunnerIds : List Nat) : SDAction :=
  if ghRunnerIds.all (fun i => env.busyState i = false) then
    if ghRunnerIds.all (fun i => env.deleteStatus i = 204) then SDAction.terminated
    else SDAction.deregisterFailed
  else SDAction.keptBusy

/-- Per-instance decision of the Phase 2 loop (`evaluateAndRemoveRunners`
body), given the idle quota remaining when the instance is reached; returns
the action and the updated quota. -/
def evalRunner (env : ScaleDownEnv) (idleCounter : Nat) (r : RunnerInfo) : SDAction × Nat :=
  let matched := matchedGhRunners env r
  if matched.length ≠ 0 then
    if runnerMinimumTimeExceeded env r then
      if 0 < idleCounter then (SDAction.keptIdle, idleCounter - 1)
      else (removeRunner env (matched.map (fun g => g.id)), idleCounter)
    else (SDAction.keptMatched, idleCounter)
  else if bootTimeExceeded env r then (SDAction.markedOrphan, idleCounter)
  else (SDAction.booting, idleCounter)

/-- `oldestFirstStrategy` comparator (scale-down.ts), verbatim including the
undefined-launch-time branches. -/
def oldestFirstStrategy (a b : RunnerInfo) : Int :=
  match a.launchTime with
  | none => 1
  | some ta =>
    match b.launchTime with
    | none => 1
    | some tb => if ta < tb then 1 else if tb < ta then -1 else 0

/-- `newestFirstStrategy` comparator (scale-down.ts). -/
def newestFirstStrategy (a b : RunnerInfo) : Int :=
  oldestFirstStrategy a b * -1

/-- Eviction-order sort of one owner group:
`.sort(evictionStrategy === 'oldest_first' ? oldestFirstStrategy : newestFirstStrategy)`. -/
def evictionSort (evictionStrategy : String) (runners : List RunnerInfo) : List RunnerInfo :=
  sortWithComparator
    (if evictionStrategy = "oldest_first" then oldestFirstStrategy else newestFirstStrategy)
    runners

/-- One step of the Phase 2 fold: record the instance, the quota remaining
when it was reached and its action, and thread the quota. -/
def sdStep (env : ScaleDownEnv) (acc : List (RunnerInfo × Nat × SDAction) × Nat)
    (r : RunnerInfo) : List (RunnerInfo × Nat × SDAction) × Nat :=
  let res := evalRunner env acc.2 r
  (acc.1 ++ [(r, acc.2, res.1)], res.2)

/-- Owner-group part of the Phase 2 fold: for each owner tag in turn, fold
`sdStep` over that owner group sorted in eviction order, threading the trace
and the idle quota. -/
def sdOwnerFold (env : ScaleDownEnv) (evictionStrategy : String) (ec2Runners : List RunnerInfo)
    (acc : List (RunnerInfo × Nat × SDAction) × Nat) (owners : List String) :
    List (RunnerInfo × Nat × SDAction) × Nat :=
  owners.foldl
    (fun a ownerTag =>
      (evictionSort evictionStrategy (ec2Runners.filter (fun r => r.owner = ownerTag))).foldl
        (sdStep env) a) acc

/-- Phase 2 (`evaluateAndRemoveRunners`): owners in first-occurrence order,
each owner group sorted by the eviction strategy, one idle quota threaded
through all groups; yields the full decision trace. -/
def evaluateAndRemoveRunners (env : ScaleDownEnv) (idleCount : Nat) (evictionStrategy : String)
    (ec2Runners : List RunnerInfo) : List (RunnerInfo × Nat × SDAction) :=
  (sdOwnerFold env evictionStrategy ec2Runners ([], idleCount)
    (dedupFirst (ec2Runners.map (fun r => r.owner)))).1

/-! ## Scale-down Phase 1 (orphan termination, scale-down.ts) -/

/-- Orphan-tagged instance as listed by `listEC2Runners({environment, orphan: true})`:
instance id and the optional `ghr:github_runner_id` tag value. -/
structure OrphanRunner where
  instanceId : String
  runnerId : Option String
deriving DecidableEq, Repr

/-- Upstream runner state returned by `getGitHubSelfHostedRunnerState`. -/
structure GhRunnerState where
  status : String
  busy : Bool
deriving DecidableEq, Repr

/-- Oracle for Phase 1: upstream runner state keyed by the runner-id string
(`none` models the 404 branch of `getGitHubSelfHostedRunnerState`). -/
structure OrphanEnv where
  runnerState : String → Option GhRunnerState

/-- Runner-id string used in the last-chance lookup:
`parseInt(runner.runnerId || '0')`; an absent or empty tag defaults to `0`.
(The lookup is keyed by the string; integer parsing is elided.) -/
def orphanRunnerIdString (r : OrphanRunner) : String :=
  match r.runnerId with
  | some s => if s = "" then "0" else s
  | none => "0"

/-- Truthiness of `runner.runnerId`, the Phase 1 branch condition: an empty
string is falsy in JavaScript, hence treated like an absent tag. -/
def orphanRunnerIdTruthy (r : OrphanRunner) : Bool :=
  match r.runnerId with
  | some s => s ≠ ""
  | none => false

/-- `lastChanceCheckOrphanRunner` (scale-down.ts): orphan when the upstream
lookup 404s, or when the state is offline and busy. -/
def lastChanceCheckOrphanRunner (env : OrphanEnv) (r : OrphanRunner) : Bool :=
  match env.runnerState (orphanRunnerIdString r) with
  | none => true
  | some state => state.status == "offline" && state.busy

/-- What Phase 1 does with one orphan-tagged instance. -/
inductive OrphanAction
  | terminate
  | untag
deriving DecidableEq, Repr

/-- Per-instance decision of `terminateOrphan` (scale-down.ts): without a
truthy runner-id tag, terminate unconditionally; otherwise terminate exactly
when the last-chance check confirms the orphan, else clear the orphan tag. -/
def terminateOrphanAction (env : OrphanEnv) (r : OrphanRunner) : OrphanAction :=
  if orphanRunnerIdTruthy r then
    if lastChanceCheckOrphanRunner env r then OrphanAction.terminate
    else OrphanAction.untag
  else OrphanAction.terminate

/-- Phase 1 (`terminateOrphan`) over the orphan-tagged inventory. -/
def terminateOrphan (env : OrphanEnv) (orphanRunners : List OrphanRunner) :
    List (OrphanRunner × OrphanAction) :=
  orphanRunners.map (fun r => (r, terminateOrphanAction env r))

/-! ## Pool top-up loop (pool/pool.ts) -/

/-- Upstream runner as listed by the pool loop. -/
structure GhPoolRunner where
  name : String
  busy : Bool
  status : String
deriving DecidableEq, Repr

/-- Time oracle for the pool loop (for `bootTimeExceeded`). -/
structure PoolEnv where
  now : Nat
  runnerBootTimeInMinutes : Nat
deriving DecidableEq, Repr

/-- The `runnerStatus` map of `adjust` (pool.ts), keyed by runner name; built
with `Map.set` in list order, so a duplicate name keeps the last entry. -/
def runnerStatusMap (runners : List GhPoolRunner) (name : String) : Option GhRunnerState :=
  (runners.reverse.find? (fun r => r.name == name)).map (fun r => ⟨r.status, r.busy⟩)

/-- `bootTimeExceeded` as used by the pool loop. -/
def poolBootTimeExceeded (env : PoolEnv) (r : RunnerInfo) : Bool :=
  r.launchTime.getD env.now + env.runnerBootTimeInMinutes < env.now

/-- In-pool classification of `adjust` (pool.ts): idle-online upstream, or
absent upstream and not yet past the boot threshold. -/
def inPool (env : PoolEnv) (ghRunners : List GhPoolRunner) (r : RunnerInfo) : Bool :=
  match runnerStatusMap ghRunners r.instanceId with
  | some st => st.busy == false && st.status == "online"
  | none => !poolBootTimeExceeded env r

/-- `numberOfRunnersInPool` of `adjust` (pool.ts). -/
def numberOfRunnersInPool (env : PoolEnv) (ghRunners : List GhPoolRunner)
    (ec2runners : List RunnerInfo) : Nat :=
  ec2runners.countP (fun r => inPool env ghRunners r)

/-- Top-up decision of `adjust` (pool.ts): `topUp = poolSize - pool`;
`createRunners` is called with `numberOfRunners = topUp` exactly when
`topUp > 0`. -/
def adjustTopUpCall (poolSize : Int) (env : PoolEnv) (ghRunners : List GhPoolRunner)
    (ec2runners : List RunnerInfo) : Option Int :=
  let topUp := poolSize - (numberOfRunnersInPool env ghRunners ec2runners : Int)
  if 0 < topUp then some topUp else none

/-! ## Retry layer (job-retry.ts) -/

/-- Modelled from the spec: the retry-layer implementation (job-retry.ts,
`publishRetryMessage` and `checkAndRetryJob`) is not under src; only its test
file is. Configuration of §4.5: `enable`, `maxAttempts`, `initialDelaySeconds`
(`delayInSeconds`), multiplicative `backoff` (`delayBackoff`); the maximum
queue delay is the constant 900 s. `maxAttempts` is optional because the
tests exercise a configuration without it (an absent bound never publishes,
as a JavaScript comparison with undefined is false). -/
structure JobRetryConfig where
  enable : Bool
  maxAttempts : Option Nat
  delayInSeconds : Nat
  delayBackoff : Nat
deriving DecidableEq, Repr

/-- Modelled from the spec: the incremented retry counter
`(retryCounter ?? -1) + 1` carried by the republished message. -/
def nextRetryCounter (retryCounter : Option Nat) : Nat :=
  match retryCounter with
  | some k => k + 1
  | none => 0

/-- Modelled from the spec: one retry-layer pass for a message (§4.5) — query
the upstream job status; if it is still queued and the incremented counter is
below `maxAttempts`, republish once with the incremented counter and delay
`min(900, delayInSeconds × backoff ^ counter)`, else do nothing. The spec
phrase `backoff^retryCounter` is read with the republished (incremented)
counter as exponent, the reading fixed by the input/output pairs of
job-retry.test.ts (counter 0, delay 10, backoff 2 publishes with delay 20).
Returns the (new counter, delay) of the single republish, or `none`. -/
def checkAndRetryJob (cfg : JobRetryConfig) (jobStatus : String) (retryCounter : Option Nat) :
    Option (Nat × Nat) :=
  if cfg.enable = true ∧ jobStatus = "queued" then
    let rc := nextRetryCounter retryCounter
    match cfg.maxAttempts with
    | some maxA =>
      if rc < maxA then some (rc, min 900 (cfg.delayInSeconds * cfg.delayBackoff ^ rc))
      else none
    | none => none
  else none

/-! ## Just-in-time provisioning (scale-up.ts `tagRunnerId`, `createJitConfig`) -/

/-- Oracles for the JIT provisioning loop: the upstream runner id and JIT
blob generated per instance, and whether the EC2 tag call for the instance
throws. (JIT generation and the SSM write are taken as succeeding; their
failures propagate out of `createJitConfig` and are outside this model.) -/
structure JitEnv where
  runnerIdFor : String → Nat
  jitBlobFor : String → String
  tagFails : String → Bool

/-- `tagRunnerId` (scale-up.ts): tag the instance with its upstream runner
id; a failure of the tag call is caught and logged, never rethrown. `none`
models the caught-and-logged failure. -/
def tagRunnerId (env : JitEnv) (instanceId : String) : Option (String × Nat) :=
  if env.tagFails instanceId then none
  else some (instanceId, env.runnerIdFor instanceId)

/-- Observable effects of `createJitConfig`: successful runner-id tags,
caught-and-logged tag failures, and the SSM secret writes (path, blob), each
in loop order. -/
structure JitResult where
  taggedInstances : List (String × Nat)
  tagFailuresLogged : List String
  secretsWritten : List (String × String)
deriving DecidableEq, Repr

/-- `createJitConfig` (scale-up.ts) per-instance loop, modelled by structural
recursion in iteration order: generate the JIT config, attempt the runner-id
tag via `tagRunnerId` (whose failure is caught), then write the JIT blob to
`${ssmTokenPath}/${instance}` — unconditionally, whether or not the tag call
failed — and continue with the remaining instances. -/
def createJitConfig (env : JitEnv) (ssmTokenPath : String) : List String → JitResult
  | [] => ⟨[], [], []⟩
  | i :: rest =>
    let r := createJitConfig env ssmTokenPath rest
    { taggedInstances := (tagRunnerId env i).toList ++ r.taggedInstances
      tagFailuresLogged := (if env.tagFails i then [i] else []) ++ r.tagFailuresLogged
      secretsWritten := (ssmTokenPath ++ "/" ++ i, env.jitBlobFor i) :: r.secretsWritten }

/-! ## Concrete seed scenarios -/

/-- Phase 2 environment for the seed scenarios: one owner `octo` whose four
upstream runners are all idle and online, every direct busy query is false,
every de-registration returns HTTP 204; minimum running time and boot
threshold are 5 minutes, current time 100. -/
def sdSeedEnv : ScaleDownEnv where
  now := 100
  minimumRunningTimeInMinutes := 5
  runnerBootTimeInMinutes := 5
  ghRunners := fun o =>
    if o = "octo" then
      [⟨1, "gh-i-1", false, "online"⟩, ⟨2, "gh-i-2", false, "online"⟩,
       ⟨3, "gh-i-3", false, "online"⟩, ⟨4, "gh-i-4", false, "online"⟩]
    else []
  busyState := fun _ => false
  deleteStatus := fun _ => 204

/-- Four instances of owner `octo`, all matched upstream, launch times
10 < 20 < 30 < 40, so `i-1` is the oldest and `i-4` the newest. -/
def sdSeedRunners : List RunnerInfo :=
  [⟨"i-1", some 10, "octo", "Org"⟩, ⟨"i-2", some 20, "octo", "Org"⟩,
   ⟨"i-3", some 30, "octo", "Org"⟩, ⟨"i-4", some 40, "octo", "Org"⟩]

/-- Instance ids terminated in the seed Phase 2 pass (idle quota 2, eviction
strategy oldest-first), in processing order. -/
def sdSeedTerminatedIds : List String :=
  ((evaluateAndRemoveRunners sdSeedEnv 2 "oldest_first" sdSeedRunners).filter
    (fun e => e.2.2 = SDAction.terminated)).map (fun e => e.1.instanceId)

/-- Instance ids kept by consuming the idle quota in the seed Phase 2 pass,
in processing order. -/
def sdSeedKeptIdleIds : List String :=
  ((evaluateAndRemoveRunners sdSeedEnv 2 "oldest_first" sdSeedRunners).filter
    (fun e => e.2.2 = SDAction.keptIdle)).map (fun e => e.1.instanceId)

/-- Phase 1 oracle for the seed scenarios: runner id 42 is online and idle,
every other id is unknown upstream (404). -/
def orphanSeedEnv : OrphanEnv :=
  ⟨fun s => if s = "42" then some ⟨"online", false⟩ else none⟩

/-- Phase 1 oracle whose every lookup returns an offline busy runner. -/
def orphanBusyEnv : OrphanEnv :=
  ⟨fun _ => some ⟨"offline", true⟩⟩

/-- Three workflow-job messages of owner `octo` (message ids m1, m2, m3). -/
def scaleUpSeedMessages : List ActionRequestMessageSQS :=
  [⟨1, "workflow_job", "r", "octo", 1, "Organization", none, "m1"⟩,
   ⟨2, "workflow_job", "r", "octo", 1, "Organization", none, "m2"⟩,
   ⟨3, "workflow_job", "r", "octo", 1, "Organization", none, "m3"⟩]

/-- Scale-up oracle: every job queued, one existing instance per scope, the
fleet call returns no instances. -/
def scaleUpSeedEnv : ScaleUpEnv :=
  ⟨fun _ => true, fun _ => 1, fun _ _ => []⟩

/-- Scale-up oracle with two existing instances per scope (above a
max-runners of 1) and a fleet call returning no instances. -/
def scaleUpOverCapEnv : ScaleUpEnv :=
  ⟨fun _ => true, fun _ => 2, fun _ _ => []⟩

/-- Scale-up oracle where the job of message m1 is no longer queued, no
instance exists yet, and the fleet call returns exactly one instance. -/
def scaleUpSkipEnv : ScaleUpEnv :=
  ⟨fun m => m.messageId != "m1", fun _ => 0, fun _ _ => ["i-x"]⟩

/-! ## Helper lemmas -/

theorem length_stableInsert (cmp : α → α → Int) (x : α) (l : List α) :
    (stableInsert cmp x l).length = l.length + 1 := by
  induction l with
  | nil => rfl
  | cons y ys ih =>
    by_cases h : cmp y x < 0 <;> simp [stableInsert, h, ih]

theorem length_sortWithComparator (cmp : α → α → Int) (l : List α) :
    (sortWithComparator cmp l).length = l.length := by
  induction l with
  | nil => rfl
  | cons x xs ih => simp [sortWithComparator, length_stableInsert, ih]

/-! ## Sanity checks against the test vectors of job-retry.test.ts -/

example : checkAndRetryJob ⟨true, some 2, 10, 2⟩ "queued" none = some (0, 10) := by decide

example : checkAndRetryJob ⟨true, some 2, 10, 2⟩ "queued" (some 0) = some (1, 20) := by decide

example : checkAndRetryJob ⟨true, some 2, 1000, 2⟩ "queued" (some 0) = some (1, 900) := by decide

example : checkAndRetryJob ⟨true, none, 1000, 2⟩ "queued" (some 0) = none := by decide

example : checkAndRetryJob ⟨false, some 2, 10, 2⟩ "queued" (some 0) = none := by decide

example : checkAndRetryJob ⟨true, some 2, 10, 2⟩ "completed" (some 0) = none := by decide

/-! ## Claim theorems -/

/-- C2: for every bulk-create invocation, zero returned instances with at
least one retriable error code throw the retriable `ScaleError`; zero
instances with only non-retriable codes throw a plain fatal error; one or
more instances never throw, whatever error codes are present. -/
theorem createRunner_errorClassification (fleet : CreateFleetResult) :
    (fleetInstances fleet = [] →
      (fleetErrorCodes fleet).any (fun e => scaleErrors.contains e) = true →
      createRunnerOutcome fleet = CreateRunnerOutcome.scaleError)
  ∧ (fleetInstances fleet = [] →
      (fleetErrorCodes fleet).any (fun e => scaleErrors.contains e) = false →
      createRunnerOutcome fleet = CreateRunnerOutcome.fatalError)
  ∧ (fleetInstances fleet ≠ [] →
      createRunnerOutcome fleet = CreateRunnerOutcome.created (fleetInstances fleet)) := by
  refine ⟨fun h ha => ?_, fun h ha => ?_, fun h => ?_⟩
  · simp [createRunnerOutcome, h]
    simpa using ha
  · simp [createRunnerOutcome, h]
    simpa using ha
  · have hl : (fleetInstances fleet).length ≠ 0 := by
      simpa [List.length_eq_zero] using h
    simp [createRunnerOutcome, hl]

/-- C2 witness: the three cases of `createRunner_errorClassification` at
concrete fleet results. -/
theorem createRunner_errorClassification_witness :
    createRunnerOutcome ⟨some [], some [⟨some "InsufficientInstanceCapacity"⟩]⟩ =
      CreateRunnerOutcome.scaleError
  ∧ createRunnerOutcome ⟨none, some [⟨some "InvalidParameterValue"⟩]⟩ =
      CreateRunnerOutcome.fatalError
  ∧ createRunnerOutcome ⟨some [⟨some ["i-1"]⟩], some [⟨some "InsufficientInstanceCapacity"⟩]⟩ =
      CreateRunnerOutcome.created ["i-1"] := by
  refine ⟨(createRunner_errorClassification _).1 (by decide) (by decide),
          (createRunner_errorClassification _).2.1 (by decide) (by decide),
          (createRunner_errorClassification _).2.2 (by decide)⟩

/-- C7 counterexample: the claim states the tag specification passed to the
bulk cloud-create call includes the environment tag; the source tag
specification does not contain the `ghr:environment` key (only marker,
creator, category and owner tags). -/
theorem createFleetTags_environmentAbsent :
    "ghr:environment" ∉ (createFleetTagSpecification 1 "Org" "octo-org").map Prod.fst
  ∧ ("ghr:Application", "github-action-runner") ∈ createFleetTagSpecification 1 "Org" "octo-org" := by
  decide

/-- C7 amended: for every created instance, the tag specification passed to
the bulk cloud-create call includes exactly the application-marker, creator,
category (Type) and owner tags; the environment tag is not part of this tag
specification (it reaches instances via the launch template instead). -/
theorem createFleetTags_fourTags (n : Int) (t o : String) :
    (createFleetTagSpecification n t o).map Prod.fst =
      ["ghr:Application", "ghr:created_by", "Type", "Owner"]
  ∧ ("ghr:Application", "github-action-runner") ∈ createFleetTagSpecification n t o
  ∧ (∃ v, ("ghr:created_by", v) ∈ createFleetTagSpecification n t o ∧
      (v = "scale-up-lambda" ∨ v = "pool-lambda"))
  ∧ ("Type", t) ∈ createFleetTagSpecification n t o
  ∧ ("Owner", o) ∈ createFleetTagSpecification n t o
  ∧ "ghr:environment" ∉ (createFleetTagSpecification n t o).map Prod.fst := by
  by_cases h : n = 1
  · refine ⟨by simp [createFleetTagSpecification, h], by simp [createFleetTagSpecification],
      ⟨"scale-up-lambda", by simp [createFleetTagSpecification, h], Or.inl rfl⟩,
      by simp [createFleetTagSpecification], by simp [createFleetTagSpecification],
      by simp [createFleetTagSpecification]⟩
  · refine ⟨by simp [createFleetTagSpecification, h], by simp [createFleetTagSpecification],
      ⟨"pool-lambda", by simp [createFleetTagSpecification, h], Or.inr rfl⟩,
      by simp [createFleetTagSpecification], by simp [createFleetTagSpecification],
      by simp [createFleetTagSpecification]⟩

/-- C9 counterexample: the claim computes the delay with the incoming counter
`k` as exponent; at counter 0, initial delay 10, backoff 2 the retry layer
publishes with delay 20 (exponent is the incremented counter), while the
claimed formula gives 10. This is the exact input/output pair of the second
test vector of job-retry.test.ts. -/
theorem jobRetry_delayExponent_counterexample :
    checkAndRetryJob ⟨true, some 2, 10, 2⟩ "queued" (some 0) = some (1, 20)
  ∧ min 900 (10 * 2 ^ 0) = 10
  ∧ (20 : Nat) ≠ 10 := by decide

/-- C9 amended: for every retry-layer message with counter `k` whose job is
still queued and with `k + 1 < maxAttempts`, exactly one republish occurs,
carrying the incremented counter (0 when the counter was absent) and queue
delay `min(900, initialDelaySeconds × backoff ^ (k + 1))` — the exponent is
the incremented counter, `backoff ^ 0` when the counter was absent; in every
other case (job not queued, attempts exhausted or absent, retry disabled) no
message is republished. -/
theorem jobRetry_republish (cfg : JobRetryConfig) (jobStatus : String)
    (retryCounter : Option Nat) (n d : Nat) :
    checkAndRetryJob cfg jobStatus retryCounter = some (n, d) ↔
      (cfg.enable = true ∧ jobStatus = "queued" ∧ n = nextRetryCounter retryCounter ∧
       (∃ m, cfg.maxAttempts = some m ∧ n < m) ∧
       d = min 900 (cfg.delayInSeconds * cfg.delayBackoff ^ nextRetryCounter retryCounter)) := by
  constructor
  · intro he
    simp only [checkAndRetryJob] at he
    split at he
    · rename_i hcond
      split at he
      · rename_i maxA hm
        split at he
        · rename_i hlt
          rw [Option.some.injEq, Prod.mk.injEq] at he
          exact ⟨hcond.1, hcond.2, he.1.symm, ⟨maxA, hm, he.1 ▸ hlt⟩, he.2.symm⟩
        · exact absurd he (by simp)
      · exact absurd he (by simp)
    · exact absurd he (by simp)
  · rintro ⟨h1, h2, hn, ⟨m, hm, hlt⟩, hd⟩
    simp only [checkAndRetryJob]
    rw [if_pos ⟨h1, h2⟩, hm]
    have hlt2 : nextRetryCounter retryCounter < m := hn ▸ hlt
    simp [hlt2, hn, hd]

/-- C10: in the JIT provisioning loop, a failed runner-id tag call is caught
and logged but never aborts the loop — the JIT secret is written for every
created instance, at its parameter path, whatever the tag-failure oracle
says, and exactly the instances whose tag call did not fail carry the
runner-id tag; so an instance can come up with a secret but without the
upstream-runner-id tag. -/
theorem jit_tagFailureDoesNotAbort (env : JitEnv) (ssmTokenPath : String)
    (instances : List String) :
    (createJitConfig env ssmTokenPath instances).secretsWritten =
      instances.map (fun i => (ssmTokenPath ++ "/" ++ i, env.jitBlobFor i))
  ∧ (createJitConfig env ssmTokenPath instances).taggedInstances =
      (instances.filter (fun i => !env.tagFails i)).map (fun i => (i, env.runnerIdFor i))
  ∧ (createJitConfig env ssmTokenPath instances).tagFailuresLogged =
      instances.filter (fun i => env.tagFails i) := by
  induction instances with
  | nil => exact ⟨rfl, rfl, rfl⟩
  | cons i rest ih =>
    obtain ⟨h1, h2, h3⟩ := ih
    by_cases h : env.tagFails i <;>
      simp [createJitConfig, tagRunnerId, h, h1, h2, h3]

/-- C3: for every scale-up intake invocation, a thrown `ScaleError` with
`failedInstanceCount = N` yields batch-item failures for exactly the first
`min(max(0, N), batch size)` messages in retry-sorted order, and any other
thrown error yields an empty batch-item-failure list. -/
theorem scaleUpHandler_batchFailures (records : List SQSRecordM) (n : Int) :
    scaleUpHandler records (ScaleUpOutcome.scaleError n) =
      ((sortByRetryCounter (collectSqsMessages records)).take
        (min (max 0 n) ((collectSqsMessages records).length : Int)).toNat).map
        (fun m => m.messageId)
  ∧ scaleUpHandler records ScaleUpOutcome.otherError = [] := by
  constructor
  · have hl : (sortByRetryCounter (collectSqsMessages records)).length =
        (collectSqsMessages records).length := by
      unfold sortByRetryCounter; exact length_sortWithComparator _ _
    simp only [scaleUpHandler, toBatchItemFailures, hl]
    have harith : (max 0 (min n ((collectSqsMessages records).length : Int))).toNat =
        (min (max 0 n) ((collectSqsMessages records).length : Int)).toNat := by omega
    rw [harith]
  · rfl

/-- Every trace entry of the per-group Phase 2 fold either was already in the
accumulator or records the decision `evalRunner` takes at the recorded
quota. -/
theorem sdFold_mem (env : ScaleDownEnv) (l : List RunnerInfo)
    (acc : List (RunnerInfo × Nat × SDAction) × Nat) :
    ∀ e ∈ (l.foldl (sdStep env) acc).1,
      e ∈ acc.1 ∨ e.2.2 = (evalRunner env e.2.1 e.1).1 := by
  induction l generalizing acc with
  | nil => intro e he; exact Or.inl he
  | cons r rs ih =>
    intro e he
    rw [List.foldl_cons] at he
    rcases ih (sdStep env acc r) e he with h | h
    · simp only [sdStep, List.mem_append, List.mem_singleton] at h
      rcases h with h | h
      · exact Or.inl h
      · subst h; exact Or.inr rfl
    · exact Or.inr h

/-- The invariant of `sdFold_mem` threads through the owner-group fold. -/
theorem sdOwnerFold_mem (env : ScaleDownEnv) (strat : String) (rs : List RunnerInfo)
    (owners : List String) :
    ∀ acc, (∀ e ∈ acc.1, e.2.2 = (evalRunner env e.2.1 e.1).1) →
      ∀ e ∈ (sdOwnerFold env strat rs acc owners).1, e.2.2 = (evalRunner env e.2.1 e.1).1 := by
  induction owners with
  | nil => intro acc hacc e he; exact hacc e he
  | cons o os ih =>
    intro acc hacc e he
    rw [sdOwnerFold, List.foldl_cons] at he
    refine ih _ ?_ e he
    intro f hf
    rcases sdFold_mem env _ acc f hf with h | h
    · exact hacc f h
    · exact h

/-- Every entry of the Phase 2 trace records exactly the decision
`evalRunner` takes at the quota value the instance was reached with. -/
theorem evaluateAndRemoveRunners_mem (env : ScaleDownEnv) (idleCount : Nat) (strat : String)
    (rs : List RunnerInfo) :
    ∀ e ∈ evaluateAndRemoveRunners env idleCount strat rs,
      e.2.2 = (evalRunner env e.2.1 e.1).1 := by
  intro e he
  unfold evaluateAndRemoveRunners at he
  exact sdOwnerFold_mem env strat rs _ ([], idleCount) (fun f hf => absurd hf (by simp)) e he

/-- C4: in every Phase 2 pass, an instance matched to upstream runners is
terminated only if its minimum running time has elapsed, the idle quota was
exhausted when it was reached in eviction order, every matched runner
reported not busy on the direct query and every de-registration returned
HTTP 204; in particular, a non-204 de-registration status for any matched
runner prevents termination (contrapositive of the last conjunct). -/
theorem scaleDown_terminationGuards (env : ScaleDownEnv) (idleCount : Nat)
    (evictionStrategy : String) (ec2Runners : List RunnerInfo) (r : RunnerInfo) (q : Nat)
    (hmem : (r, q, SDAction.terminated) ∈
      evaluateAndRemoveRunners env idleCount evictionStrategy ec2Runners) :
    runnerMinimumTimeExceeded env r = true
  ∧ q = 0
  ∧ matchedGhRunners env r ≠ []
  ∧ (∀ g ∈ matchedGhRunners env r, env.busyState g.id = false)
  ∧ (∀ g ∈ matchedGhRunners env r, env.deleteStatus g.id = 204) := by
  have h := evaluateAndRemoveRunners_mem env idleCount evictionStrategy ec2Runners _ hmem
  simp only at h
  unfold evalRunner at h
  by_cases h1 : (matchedGhRunners env r).length ≠ 0
  · rw [if_pos h1] at h
    by_cases h2 : runnerMinimumTimeExceeded env r
    · rw [if_pos h2] at h
      by_cases h3 : 0 < q
      · rw [if_pos h3] at h
        exact absurd h (by simp)
      · rw [if_neg h3] at h
        simp only at h
        unfold removeRunner at h
        split at h
        · split at h
          · rename_i hbusy hdel
            refine ⟨h2, by omega, by simpa [List.length_eq_zero] using h1, ?_, ?_⟩
            · intro g hg
              have hmm : g.id ∈ (matchedGhRunners env r).map (fun g => g.id) :=
                List.mem_map_of_mem _ hg
              simpa using List.all_eq_true.mp hbusy _ hmm
            · intro g hg
              have hmm : g.id ∈ (matchedGhRunners env r).map (fun g => g.id) :=
                List.mem_map_of_mem _ hg
              simpa using List.all_eq_true.mp hdel _ hmm
          · exact absurd h (by simp)
        · exact absurd h (by simp)
    · rw [if_neg h2] at h
      exact absurd h (by simp)
  · rw [if_neg h1] at h
    split at h <;> exact absurd h (by simp)

/-- C4 witness: `scaleDown_terminationGuards` applied to a one-instance pass
with idle quota 0 in the seed environment, where the instance is
terminated. -/
theorem scaleDown_terminationGuards_witness :
    runnerMinimumTimeExceeded sdSeedEnv ⟨"i-1", some 10, "octo", "Org"⟩ = true
  ∧ (0 : Nat) = 0
  ∧ matchedGhRunners sdSeedEnv ⟨"i-1", some 10, "octo", "Org"⟩ ≠ []
  ∧ (∀ g ∈ matchedGhRunners sdSeedEnv ⟨"i-1", some 10, "octo", "Org"⟩,
      sdSeedEnv.busyState g.id = false)
  ∧ (∀ g ∈ matchedGhRunners sdSeedEnv ⟨"i-1", some 10, "octo", "Org"⟩,
      sdSeedEnv.deleteStatus g.id = 204) :=
  scaleDown_terminationGuards sdSeedEnv 0 "oldest_first"
    [⟨"i-1", some 10, "octo", "Org"⟩] ⟨"i-1", some 10, "octo", "Org"⟩ 0 (by decide)

/-- C6 counterexample: in the seed pass (four instances, quota 2, strategy
oldest-first) the claim expects the two newest instances (`i-3`, `i-4`) to be
terminated; the code terminates neither of them, and does terminate the
oldest (`i-1`): the `oldest_first` comparator orders newest first, so the
quota preserves the newest and eviction removes the oldest. -/
theorem scaleDown_evictionOrder_counterexample :
    "i-4" ∉ sdSeedTerminatedIds
  ∧ "i-3" ∉ sdSeedTerminatedIds
  ∧ "i-1" ∈ sdSeedTerminatedIds := by decide

/-- C6 amended: in the seed Phase 2 pass (four instances of one owner, all
matched, past minimum running time and idle, quota 2, strategy oldest-first)
the two newest instances are kept by consuming the idle quota and the two
oldest are de-registered and terminated, oldest last in processing order. -/
theorem scaleDown_evictionOrder :
    sdSeedTerminatedIds = ["i-2", "i-1"]
  ∧ sdSeedKeptIdleIds = ["i-4", "i-3"] := by decide

/-- C5: in every Phase 1 pass, an orphan-tagged instance without a (truthy)
upstream-runner-id tag is terminated unconditionally; with the tag, the
last-chance lookup decides — a 404 or an offline-and-busy state leads to
termination, any other state clears the orphan tag with no termination. -/
theorem scaleDown_orphanTermination (env : OrphanEnv) (r : OrphanRunner) :
    (orphanRunnerIdTruthy r = false → terminateOrphanAction env r = OrphanAction.terminate)
  ∧ (∀ s, r.runnerId = some s → s ≠ "" → env.runnerState s = none →
      terminateOrphanAction env r = OrphanAction.terminate)
  ∧ (∀ s st, r.runnerId = some s → s ≠ "" → env.runnerState s = some st →
      st.status = "offline" → st.busy = true →
      terminateOrphanAction env r = OrphanAction.terminate)
  ∧ (∀ s st, r.runnerId = some s → s ≠ "" → env.runnerState s = some st →
      ¬(st.status = "offline" ∧ st.busy = true) →
      terminateOrphanAction env r = OrphanAction.untag) := by
  refine ⟨fun h => ?_, fun s hs hne hlook => ?_, fun s st hs hne hlook hoff hbusy => ?_,
          fun s st hs hne hlook hnot => ?_⟩
  · simp [terminateOrphanAction, h]
  · have hid : orphanRunnerIdString r = s := by simp [orphanRunnerIdString, hs, hne]
    have ht : orphanRunnerIdTruthy r = true := by simp [orphanRunnerIdTruthy, hs, hne]
    simp [terminateOrphanAction, ht, lastChanceCheckOrphanRunner, hid, hlook]
  · have hid : orphanRunnerIdString r = s := by simp [orphanRunnerIdString, hs, hne]
    have ht : orphanRunnerIdTruthy r = true := by simp [orphanRunnerIdTruthy, hs, hne]
    simp [terminateOrphanAction, ht, lastChanceCheckOrphanRunner, hid, hlook, hoff, hbusy]
  · have hid : orphanRunnerIdString r = s := by simp [orphanRunnerIdString, hs, hne]
    have ht : orphanRunnerIdTruthy r = true := by simp [orphanRunnerIdTruthy, hs, hne]
    have hlc : lastChanceCheckOrphanRunner env r = false := by
      simp [lastChanceCheckOrphanRunner, hid, hlook]
      intro hoff
      by_contra hb
      exact hnot ⟨hoff, by simpa using hb⟩
    simp [terminateOrphanAction, ht, hlc]

/-- C5 witness: `scaleDown_orphanTermination` applied to the four concrete
cases — absent tag, 404 lookup, offline-and-busy state, rescued false
positive. -/
theorem scaleDown_orphanTermination_witness :
    terminateOrphanAction orphanSeedEnv ⟨"i-a", none⟩ = OrphanAction.terminate
  ∧ terminateOrphanAction orphanSeedEnv ⟨"i-b", some "7"⟩ = OrphanAction.terminate
  ∧ terminateOrphanAction orphanBusyEnv ⟨"i-c", some "42"⟩ = OrphanAction.terminate
  ∧ terminateOrphanAction orphanSeedEnv ⟨"i-d", some "42"⟩ = OrphanAction.untag := by
  refine ⟨(scaleDown_orphanTermination orphanSeedEnv _).1 (by decide),
          (scaleDown_orphanTermination orphanSeedEnv _).2.1 "7" rfl (by decide) (by decide),
          (scaleDown_orphanTermination orphanBusyEnv _).2.2.1 "42" ⟨"offline", true⟩ rfl
            (by decide) (by decide) rfl rfl,
          (scaleDown_orphanTermination orphanSeedEnv _).2.2.2 "42" ⟨"online", false⟩ rfl
            (by decide) (by decide) (by decide)⟩

/-- C8: for every pool top-up invocation, an instance counts as in-pool
exactly when it is present upstream with status online and not busy, or
absent upstream with its boot threshold not yet passed; and the provisioning
primitive is invoked exactly when `max(0, N - pool)` is strictly positive,
with `numberOfRunners` equal to that amount. -/
theorem pool_inPoolAndTopUp (env : PoolEnv) (ghRunners : List GhPoolRunner)
    (ec2runners : List RunnerInfo) (r : RunnerInfo) (poolSize : Int) :
    (inPool env ghRunners r = true ↔
      ((∃ st, runnerStatusMap ghRunners r.instanceId = some st ∧
          st.busy = false ∧ st.status = "online")
       ∨ (runnerStatusMap ghRunners r.instanceId = none ∧ poolBootTimeExceeded env r = false)))
  ∧ (∀ k : Int, adjustTopUpCall poolSize env ghRunners ec2runners = some k ↔
      (0 < max 0 (poolSize - (numberOfRunnersInPool env ghRunners ec2runners : Int)) ∧
       k = max 0 (poolSize - (numberOfRunnersInPool env ghRunners ec2runners : Int)))) := by
  constructor
  · unfold inPool
    cases h : runnerStatusMap ghRunners r.instanceId with
    | none => simp [h]
    | some st => simp [h]
  · intro k
    unfold adjustTopUpCall
    by_cases h : 0 < poolSize - (numberOfRunnersInPool env ghRunners ec2runners : Int)
    · rw [if_pos h]
      constructor
      · intro he
        rw [Option.some.injEq] at he
        constructor <;> omega
      · rintro ⟨h1, h2⟩
        rw [Option.some.injEq]
        omega
    · rw [if_neg h]
      constructor
      · intro he
        exact absurd he (by simp)
      · rintro ⟨h1, h2⟩
        exfalso
        omega

/-- Characterization of the per-scope capacity stage under the hypotheses
`maximumRunners ≠ -1`, ephemeral mode on and `current ≤ maximumRunners`:
when the capped count is 0 the first `want` messages are rejected and no call
is made; otherwise the first `want - capped` messages are rejected, one call
for `capped` instances is made and a shortfall rejects from the remaining
messages. -/
theorem processGroupCapacity_spec (cfg : ScaleUpConfig) (env : ScaleUpEnv) (group : String)
    (messages : List ActionRequestMessageSQS) (L : Nat)
    (hmax : cfg.maximumRunners ≠ -1)
    (heph : cfg.ephemeralEnabled = true)
    (hcur : (env.currentRunners group : Int) ≤ cfg.maximumRunners)
    (hL0 : L ≠ 0) :
    processGroupCapacity cfg env group messages L =
      if cappedNewRunnerCount cfg env group L = 0 then
        ⟨(messages.take L).map (fun m => m.messageId), []⟩
      else
        ⟨(messages.take (L - cappedNewRunnerCount cfg env group L)).map (fun m => m.messageId) ++
            fleetShortfallRejects env group
              (messages.drop (L - cappedNewRunnerCount cfg env group L))
              (cappedNewRunnerCount cfg env group L),
         [(group, (cappedNewRunnerCount cfg env group L : Int))]⟩ := by
  by_cases hN : cappedNewRunnerCount cfg env group L = 0
  · have hmiss :
        (max 0 ((L : Int) -
          min (L : Int) (cfg.maximumRunners - (env.currentRunners group : Int)))).toNat = L := by
      unfold cappedNewRunnerCount at hN
      omega
    have hpos : 0 < L := Nat.pos_of_ne_zero hL0
    simp only [processGroupCapacity, if_neg hmax, heph, and_true, hmiss, if_pos hpos,
      if_pos hN, eq_self_iff_true, if_true]
  · have hNR :
        min (L : Int) (cfg.maximumRunners - (env.currentRunners group : Int)) =
          (cappedNewRunnerCount cfg env group L : Int) := by
      unfold cappedNewRunnerCount
      omega
    have hmiss :
        (max 0 ((L : Int) - (cappedNewRunnerCount cfg env group L : Int))).toNat =
          L - cappedNewRunnerCount cfg env group L := by
      unfold cappedNewRunnerCount
      omega
    have hle : cappedNewRunnerCount cfg env group L ≤ L := by
      unfold cappedNewRunnerCount
      omega
    have hmissne : L - cappedNewRunnerCount cfg env group L ≠ L := by
      omega
    simp only [processGroupCapacity, if_neg hmax, heph, and_true, hNR, hmiss,
      if_neg hmissne, if_neg hN]
    by_cases h0 : 0 < L - cappedNewRunnerCount cfg env group L
    · simp only [if_pos h0, fleetShortfallRejects]
    · have h00 : L - cappedNewRunnerCount cfg env group L = 0 := by omega
      simp only [if_neg h0, h00, List.take_zero, List.map_nil, List.nil_append,
        List.drop_zero, fleetShortfallRejects]
      simp

/-- Characterization of the per-scope capacity stage with ephemeral mode
off, under `maximumRunners ≠ -1` and `current ≤ maximumRunners`: no
capacity-stage rejection ever happens; when the capped count is 0 the scope
is skipped entirely, otherwise one call for `capped` instances is made and
only a shortfall rejects (from the full, unspliced group list). -/
theorem processGroupCapacity_specOff (cfg : ScaleUpConfig) (env : ScaleUpEnv) (group : String)
    (messages : List ActionRequestMessageSQS) (L : Nat)
    (hmax : cfg.maximumRunners ≠ -1)
    (heph : cfg.ephemeralEnabled = false)
    (hcur : (env.currentRunners group : Int) ≤ cfg.maximumRunners)
    (hL0 : L ≠ 0) :
    processGroupCapacity cfg env group messages L =
      if cappedNewRunnerCount cfg env group L = 0 then ⟨[], []⟩
      else
        ⟨fleetShortfallRejects env group messages (cappedNewRunnerCount cfg env group L),
         [(group, (cappedNewRunnerCount cfg env group L : Int))]⟩ := by
  by_cases hN : cappedNewRunnerCount cfg env group L = 0
  · have hmiss :
        (max 0 ((L : Int) -
          min (L : Int) (cfg.maximumRunners - (env.currentRunners group : Int)))).toNat = L := by
      unfold cappedNewRunnerCount at hN
      omega
    simp only [processGroupCapacity, if_neg hmax, heph, Bool.false_eq_true, and_false,
      if_false, hmiss, if_pos hN, eq_self_iff_true, if_true]
  · have hNR :
        min (L : Int) (cfg.maximumRunners - (env.currentRunners group : Int)) =
          (cappedNewRunnerCount cfg env group L : Int) := by
      unfold cappedNewRunnerCount
      omega
    have hmiss :
        (max 0 ((L : Int) - (cappedNewRunnerCount cfg env group L : Int))).toNat =
          L - cappedNewRunnerCount cfg env group L := by
      unfold cappedNewRunnerCount
      omega
    have hle : cappedNewRunnerCount cfg env group L ≤ L := by
      unfold cappedNewRunnerCount
      omega
    have hmissne : L - cappedNewRunnerCount cfg env group L ≠ L := by
      omega
    simp only [processGroupCapacity, if_neg hmax, heph, Bool.false_eq_true, and_false,
      if_false, hNR, hmiss, if_neg hmissne, if_neg hN, fleetShortfallRejects, List.nil_append]

/-- C1 counterexample: three concrete failures of the claim. (i) With
ephemeral mode disabled — batch of three surviving messages, max-runners 1,
current 1, so `want - newCount = 3` — the code makes no bulk-create call (as
the claim says) but rejects nothing, though the claim demands all three ids
on the reject list: the capacity-stage rejection is guarded by the ephemeral
flag. (ii) With current = 2 above max-runners 1 and one message, the claimed
request count is `min(1, max(0, 1 - 2)) = 0`, so no bulk-create call should
be made; the code issues one requesting -1 instances. (iii) With the queued
check dropping message m1, `want = 2`, max-runners 1, current 0, so
`want - newCount = 1`, the claim rejects the first surviving message (m2);
the code splices from the full group list and rejects the non-surviving
m1. -/
theorem scaleUp_capacity_counterexample :
    (processGroup ⟨true, 1, false, false⟩ scaleUpSeedEnv "octo" scaleUpSeedMessages = ⟨[], []⟩
      ∧ (survivingMessages ⟨true, 1, false, false⟩ scaleUpSeedEnv scaleUpSeedMessages).length = 3
      ∧ cappedNewRunnerCount ⟨true, 1, false, false⟩ scaleUpSeedEnv "octo" 3 = 0)
  ∧ ((processGroup ⟨true, 1, true, false⟩ scaleUpOverCapEnv "octo"
        [⟨1, "workflow_job", "r", "octo", 1, "Organization", none, "m1"⟩]).calls =
          [("octo", -1)]
      ∧ cappedNewRunnerCount ⟨true, 1, true, false⟩ scaleUpOverCapEnv "octo" 1 = 0)
  ∧ ((processGroup ⟨true, 1, true, true⟩ scaleUpSkipEnv "octo" scaleUpSeedMessages).rejects =
          ["m1"]
      ∧ (survivingMessages ⟨true, 1, true, true⟩ scaleUpSkipEnv scaleUpSeedMessages).map
          (fun m => m.messageId) = ["m2", "m3"]) := by
  decide

/-- C1 amended: for every scale-up batch and every owning scope with `want`
surviving messages, when max-runners is not -1 and the current inventory does
not exceed max-runners, the number of instances requested from the
bulk-create call equals `newCount = min(want, max(0, max-runners - current))`
— with no call at all when that is 0 — in both ephemeral modes; when
ephemeral mode is enabled the reject list of the scope is exactly the first
`want - newCount` messages of the full group list (in batch order, including
messages the queued check dropped) followed by the shortfall rejects of the
call, and when ephemeral mode is disabled it is exactly the shortfall rejects
(no capacity-stage rejection). -/
theorem scaleUp_capacity (cfg : ScaleUpConfig) (env : ScaleUpEnv) (group : String)
    (messages : List ActionRequestMessageSQS)
    (hmax : cfg.maximumRunners ≠ -1)
    (hcur : (env.currentRunners group : Int) ≤ cfg.maximumRunners) :
    ((processGroup cfg env group messages).calls =
      if cappedNewRunnerCount cfg env group (survivingMessages cfg env messages).length = 0
      then []
      else [(group,
        (cappedNewRunnerCount cfg env group (survivingMessages cfg env messages).length : Int))])
  ∧ (cfg.ephemeralEnabled = true →
      (processGroup cfg env group messages).rejects =
        (messages.take ((survivingMessages cfg env messages).length -
          cappedNewRunnerCount cfg env group (survivingMessages cfg env messages).length)).map
          (fun m => m.messageId) ++
        (if cappedNewRunnerCount cfg env group (survivingMessages cfg env messages).length = 0
         then []
         else fleetShortfallRejects env group
           (messages.drop ((survivingMessages cfg env messages).length -
             cappedNewRunnerCount cfg env group (survivingMessages cfg env messages).length))
           (cappedNewRunnerCount cfg env group (survivingMessages cfg env messages).length)))
  ∧ (cfg.ephemeralEnabled = false →
      (processGroup cfg env group messages).rejects =
        (if cappedNewRunnerCount cfg env group (survivingMessages cfg env messages).length = 0
         then []
         else fleetShortfallRejects env group messages
           (cappedNewRunnerCount cfg env group (survivingMessages cfg env messages).length))) := by
  by_cases hL0 : (survivingMessages cfg env messages).length = 0
  · have hN0 : cappedNewRunnerCount cfg env group (survivingMessages cfg env messages).length = 0 := by
      unfold cappedNewRunnerCount
      omega
    have hN00 : cappedNewRunnerCount cfg env group 0 = 0 := by
      unfold cappedNewRunnerCount
      omega
    refine ⟨?_, fun heph => ?_, fun heph => ?_⟩
    · rw [if_pos hN0]
      simp [processGroup, hL0]
    · simp [processGroup, hL0, hN0, hN00]
    · simp [processGroup, hL0, hN0, hN00]
  · have hpg : processGroup cfg env group messages =
        processGroupCapacity cfg env group messages (survivingMessages cfg env messages).length := by
      simp [processGroup, hL0]
    refine ⟨?_, fun heph => ?_, fun heph => ?_⟩
    · cases hE : cfg.ephemeralEnabled with
      | true =>
        rw [hpg, processGroupCapacity_spec cfg env group messages _ hmax hE hcur hL0]
        by_cases hN : cappedNewRunnerCount cfg env group
            (survivingMessages cfg env messages).length = 0
        · rw [if_pos hN, if_pos hN]
        · rw [if_neg hN, if_neg hN]
      | false =>
        rw [hpg, processGroupCapacity_specOff cfg env group messages _ hmax hE hcur hL0]
        by_cases hN : cappedNewRunnerCount cfg env group
            (survivingMessages cfg env messages).length = 0
        · rw [if_pos hN, if_pos hN]
        · rw [if_neg hN, if_neg hN]
    · rw [hpg, processGroupCapacity_spec cfg env group messages _ hmax heph hcur hL0]
      by_cases hN : cappedNewRunnerCount cfg env group
          (survivingMessages cfg env messages).length = 0
      · rw [if_pos hN, if_pos hN]
        simp [hN]
      · rw [if_neg hN, if_neg hN]
    · rw [hpg, processGroupCapacity_specOff cfg env group messages _ hmax heph hcur hL0]
      by_cases hN : cappedNewRunnerCount cfg env group
          (survivingMessages cfg env messages).length = 0
      · rw [if_pos hN, if_pos hN]
      · rw [if_neg hN, if_neg hN]

/-- C1 witness: `scaleUp_capacity` at concrete scopes. With ephemeral
enabled — three messages, max-runners 1, current 1 — no bulk-create call is
made and all three message ids are rejected; with ephemeral disabled at the
same scope the reject list is empty. -/
theorem scaleUp_capacity_witness :
    (processGroup ⟨true, 1, true, false⟩ scaleUpSeedEnv "octo" scaleUpSeedMessages).calls = []
  ∧ (processGroup ⟨true, 1, true, false⟩ scaleUpSeedEnv "octo" scaleUpSeedMessages).rejects =
      ["m1", "m2", "m3"]
  ∧ (processGroup ⟨true, 1, false, false⟩ scaleUpSeedEnv "octo" scaleUpSeedMessages).rejects =
      [] := by
  obtain ⟨h1, h2, _⟩ := scaleUp_capacity ⟨true, 1, true, false⟩ scaleUpSeedEnv "octo"
    scaleUpSeedMessages (by decide) (by decide)
  obtain ⟨_, _, h3⟩ := scaleUp_capacity ⟨true, 1, false, false⟩ scaleUpSeedEnv "octo"
    scaleUpSeedMessages (by decide) (by decide)
  refine ⟨?_, ?_, ?_⟩
  · rw [h1]
    decide
  · rw [h2 rfl]
    decide
  · rw [h3 rfl]
    decide
